import Mathlib

/-!
Shallow embedding of the Nodes desktop shell lifecycle controller
(`src/apps/desktop/src-tauri/src/main.rs` and
`src/apps/desktop/src-tauri/src/tray.rs`).

The Rust code registers event handlers (window events, tray menu events,
tray icon events, second-instance notifications).  Each handler is embedded
as a pure function from the event (and the observable environment, such as
whether the "main" webview window exists) to the list of side effects the
handler performs, in source order.  An `AppState` records the observable
consequences of those effects; the spec's four lifecycle states are a
derived view of that state.
-/

namespace Nodes

/-- Side effects the Rust handlers can perform, in the order the source
performs them. -/
inductive Effect where
  | preventClose
  | hideWindow
  | showWindow
  | setFocus
  | emitBeforeQuit
  | spawnExitTimer (ms : Nat)
  deriving DecidableEq, Repr

/-- Mouse buttons of `tauri::tray::MouseButton`. -/
inductive MouseButton where
  | left
  | right
  | middle
  deriving DecidableEq, Repr

/-- Tray icon events of `tauri::tray::TrayIconEvent` (the variants relevant
to the handler: a click carries its button; everything else is ignored by
the source's wildcard arm). -/
inductive TrayIconEvent where
  | click (button : MouseButton)
  | doubleClick (button : MouseButton)
  | enter
  | move
  | leave
  deriving DecidableEq, Repr

/-- Window events of `tauri::WindowEvent` (the handler only matches
`CloseRequested`; the other variants fall to the wildcard). -/
inductive WindowEvent where
  | closeRequested
  | focused (gained : Bool)
  | resized
  | moved
  | destroyed
  deriving DecidableEq, Repr

/-- The minimize-to-tray close handler in `main.rs` (`if minimize_to_tray`
branch): on `CloseRequested` it calls `api.prevent_close()` and then
`window.hide()` (result discarded); other window events do nothing. -/
def onWindowEventMinimize : WindowEvent → List Effect
  | .closeRequested => [.preventClose, .hideWindow]
  | _ => []

/-- The quit-on-close close handler in `main.rs` (`else` branch): on
`CloseRequested` it emits `"app:before-quit"`, calls `api.prevent_close()`,
and spawns a thread that sleeps 200ms and calls `handle.exit(0)`; other
window events do nothing. -/
def onWindowEventQuitOnClose : WindowEvent → List Effect
  | .closeRequested => [.emitBeforeQuit, .preventClose, .spawnExitTimer 200]
  | _ => []

/-- The close handler installed by `setup`, selected by the
`minimize_to_tray` policy flag. -/
def onWindowEvent (minimizeToTray : Bool) (e : WindowEvent) : List Effect :=
  if minimizeToTray then onWindowEventMinimize e else onWindowEventQuitOnClose e

/-- The tray menu handler from `tray.rs` (`on_menu_event`): dispatch on
`event.id.as_ref()`.  `"show"`: if the `"main"` webview window is found,
show and focus it.  `"quit"`: if the window is found, emit
`"app:before-quit"` on it; then (unconditionally) spawn a thread that
sleeps 500ms and calls `app_handle.exit(0)`.  Any other identifier does
nothing (`_ => {}`). -/
def onMenuEvent (windowExists : Bool) (id : String) : List Effect :=
  match id with
  | "show" =>
      if windowExists then [.showWindow, .setFocus] else []
  | "quit" =>
      (if windowExists then [.emitBeforeQuit] else []) ++ [.spawnExitTimer 500]
  | _ => []

/-- The tray icon handler from `tray.rs` (`on_tray_icon_event`): only a
`Click` with `MouseButton::Left` does anything — if the `"main"` webview
window is found, show and focus it; every other event falls outside the
`if let` and does nothing. -/
def onTrayIconEvent (windowExists : Bool) (e : TrayIconEvent) : List Effect :=
  match e with
  | .click .left =>
      if windowExists then [.showWindow, .setFocus] else []
  | _ => []

/-- The single-instance plugin callback from `main.rs`: if the `"main"`
webview window is found, show and focus it (both results discarded);
otherwise nothing. -/
def onSecondInstance (windowExists : Bool) : List Effect :=
  if windowExists then [.showWindow, .setFocus] else []

/-- The single-instance callback with the fallibility of the platform calls
made explicit: `window.show()` and `window.set_focus()` each return a
`tauri::Result`, and the closure discards both with `let _ =`.  The
callback itself returns `()` and cannot fail, so its embedding is
`Except`-valued only to show it never produces an error. -/
def onSecondInstanceFallible (window : Option Unit)
    (showResult setFocusResult : Except String Unit) :
    Except String (List Effect) :=
  match window with
  | some _ =>
      let _ := showResult
      let _ := setFocusResult
      .ok [.showWindow, .setFocus]
  | none => .ok []

/-- Outcome of running Rust code that may panic (an `unwrap` on `None`)
in addition to returning a value. -/
inductive PanicOr (α : Type) where
  | panicked (msg : String)
  | value (v : α)
  deriving DecidableEq, Repr

/-- The message `Option::unwrap` panics with in Rust. -/
def unwrapNoneMsg : String := "called `Option::unwrap()` on a `None` value"

/-- `create_tray` from `tray.rs`, as observed through its use of the app
handle: it calls `app.default_window_icon().unwrap()` — a panic when the
app has no default window icon — and otherwise the builder chain's
`tauri::Result` is propagated with `?` (modelled as succeeding, since the
claims only concern the unwrap). -/
def create_tray (defaultWindowIcon : Option Unit) : PanicOr (Except String Unit) :=
  match defaultWindowIcon with
  | none => .panicked unwrapNoneMsg
  | some _ => .value (.ok ())

/-- The `setup` closure from `main.rs`: first `create_tray(app.handle())?`,
then `app.get_webview_window("main").unwrap()` in whichever policy branch
runs — a panic when the `"main"` window does not exist — and finally
`Ok(())`. -/
def setup (mainWindow : Option Unit) (defaultWindowIcon : Option Unit)
    (minimizeToTray : Bool) : PanicOr (Except String Unit) :=
  match create_tray defaultWindowIcon with
  | .panicked m => .panicked m
  | .value (.error e) => .value (.error e)
  | .value (.ok _) =>
      let _ := minimizeToTray
      match mainWindow with
      | none => .panicked unwrapNoneMsg
      | some _ => .value (.ok ())

/-- Observable application state: whether the window is visible, the grace
periods of the exit timers spawned so far (in spawn order), how many times
`"app:before-quit"` has been emitted, and whether `exit(0)` has run. -/
structure AppState where
  windowVisible : Bool
  pendingTimers : List Nat
  emittedBeforeQuit : Nat
  exited : Bool
  deriving DecidableEq, Repr

/-- Effect semantics on the observable state.  `preventClose` and
`setFocus` change nothing observable here; hiding/showing toggles
visibility; emitting increments the emission count; spawning a timer
records its grace period. -/
def applyEffect (s : AppState) : Effect → AppState
  | .preventClose => s
  | .hideWindow => { s with windowVisible := false }
  | .showWindow => { s with windowVisible := true }
  | .setFocus => s
  | .emitBeforeQuit => { s with emittedBeforeQuit := s.emittedBeforeQuit + 1 }
  | .spawnExitTimer ms => { s with pendingTimers := s.pendingTimers ++ [ms] }

/-- Run a handler's effect list left to right. -/
def applyEffects (s : AppState) (effs : List Effect) : AppState :=
  effs.foldl applyEffect s

/-- A spawned exit thread waking up: `handle.exit(0)` terminates the
process unconditionally, whatever the state. -/
def fireTimer (s : AppState) : AppState :=
  { s with exited := true }

/-- The spec's lifecycle states. -/
inductive LifecycleState where
  | runningVisible
  | runningHidden
  | shuttingDown
  | terminated
  deriving DecidableEq, Repr

/-- The lifecycle state as a view of the observable state: terminated once
`exit(0)` has run; shutting down while an exit timer is armed; otherwise
running, visible or hidden. -/
def lifecycleState (s : AppState) : LifecycleState :=
  if s.exited then .terminated
  else if s.pendingTimers.isEmpty then
    (if s.windowVisible then .runningVisible else .runningHidden)
  else .shuttingDown

/-- The state at startup: window visible, no timers, nothing emitted,
process alive. -/
def initialState : AppState :=
  { windowVisible := true, pendingTimers := [], emittedBeforeQuit := 0, exited := false }

/-- The state after `n` `CloseRequested` events handled under the
minimize-to-tray policy, starting from the initial state. -/
def closeLoop : Nat → AppState
  | 0 => initialState
  | n + 1 => applyEffects (closeLoop n) (onWindowEvent true .closeRequested)

/-- Invariant of the minimize-to-tray close loop: no exit timer is ever
armed, nothing is emitted, and the process never exits. -/
theorem closeLoop_invariant (n : Nat) :
    (closeLoop n).pendingTimers = [] ∧ (closeLoop n).emittedBeforeQuit = 0 ∧
    (closeLoop n).exited = false := by
  induction n with
  | zero => exact ⟨rfl, rfl, rfl⟩
  | succ n ih =>
    obtain ⟨h1, h2, h3⟩ := ih
    simp only [closeLoop, applyEffects, onWindowEvent, onWindowEventMinimize,
      List.foldl, applyEffect]
    exact ⟨h1, h2, h3⟩

/-- C1: under the minimize-to-tray policy, every sequence of
`CloseRequested` events keeps the lifecycle state in
Running-Visible/Running-Hidden — never ShuttingDown or Terminated — the
process stays alive, and each close request suppresses the OS close and
hides the window. -/
theorem minimize_policy_never_terminates (n : Nat) :
    (lifecycleState (closeLoop n) = LifecycleState.runningVisible ∨
      lifecycleState (closeLoop n) = LifecycleState.runningHidden) ∧
    lifecycleState (closeLoop n) ≠ LifecycleState.shuttingDown ∧
    lifecycleState (closeLoop n) ≠ LifecycleState.terminated ∧
    (closeLoop n).exited = false ∧
    Effect.preventClose ∈ onWindowEvent true WindowEvent.closeRequested ∧
    Effect.hideWindow ∈ onWindowEvent true WindowEvent.closeRequested := by
  obtain ⟨h1, h2, h3⟩ := closeLoop_invariant n
  have hview : lifecycleState (closeLoop n) =
      if (closeLoop n).windowVisible then LifecycleState.runningVisible
      else LifecycleState.runningHidden := by
    simp [lifecycleState, h1, h3]
  by_cases hv : (closeLoop n).windowVisible <;>
    simp [hview, hv, h3] <;> decide

/-- C2: for every `CloseRequested` window event, under either policy
branch, the installed handler calls `api.prevent_close()`, so the OS close
is never allowed to proceed natively. -/
theorem closeRequested_always_prevented (policy : Bool) :
    Effect.preventClose ∈ onWindowEvent policy WindowEvent.closeRequested := by
  cases policy <;> decide

/-- C3: under the quit-on-close policy, a `CloseRequested` event emits
`"app:before-quit"` strictly before the 200ms exit timer is spawned, and a
fired timer terminates the process unconditionally. -/
theorem quitOnClose_emits_before_arming :
    onWindowEvent false WindowEvent.closeRequested =
      [Effect.emitBeforeQuit, Effect.preventClose, Effect.spawnExitTimer 200] ∧
    (∃ i j : Nat, i < j ∧
      (onWindowEvent false WindowEvent.closeRequested)[i]? = some Effect.emitBeforeQuit ∧
      (onWindowEvent false WindowEvent.closeRequested)[j]? = some (Effect.spawnExitTimer 200)) ∧
    (∀ s : AppState, (fireTimer s).exited = true) :=
  ⟨rfl, ⟨0, 2, by decide, rfl, rfl⟩, fun _ => rfl⟩

/-- C4 counterexample: after a tray quit the lifecycle state is
ShuttingDown, yet a second tray quit is not a no-op — it changes the state
and emits `"app:before-quit"` a second time. -/
theorem second_quit_not_noop :
    lifecycleState (applyEffects initialState (onMenuEvent true "quit")) =
      LifecycleState.shuttingDown ∧
    applyEffects (applyEffects initialState (onMenuEvent true "quit"))
        (onMenuEvent true "quit") ≠
      applyEffects initialState (onMenuEvent true "quit") ∧
    (applyEffects (applyEffects initialState (onMenuEvent true "quit"))
        (onMenuEvent true "quit")).emittedBeforeQuit = 2 := by
  decide

/-- C4 amended: once ShuttingDown has been entered, a further tray quit is
not a no-op: it emits `"app:before-quit"` again and arms an additional
500ms timer (and, under quit-on-close, a further close request likewise
emits again and arms an additional 200ms timer), so the notification can
be emitted more than once per shutdown sequence; the state nevertheless
remains ShuttingDown. -/
theorem quit_during_shutdown_reenters (s : AppState)
    (h : lifecycleState s = LifecycleState.shuttingDown) :
    applyEffects s (onMenuEvent true "quit") =
      { s with emittedBeforeQuit := s.emittedBeforeQuit + 1,
               pendingTimers := s.pendingTimers ++ [500] } ∧
    (applyEffects s (onMenuEvent true "quit")).emittedBeforeQuit =
      s.emittedBeforeQuit + 1 ∧
    applyEffects s (onWindowEvent false WindowEvent.closeRequested) =
      { s with emittedBeforeQuit := s.emittedBeforeQuit + 1,
               pendingTimers := s.pendingTimers ++ [200] } ∧
    lifecycleState (applyEffects s (onMenuEvent true "quit")) =
      LifecycleState.shuttingDown := by
  have hexit : s.exited = false := by
    by_contra hx
    simp only [Bool.not_eq_false] at hx
    simp [lifecycleState, hx] at h
  refine ⟨rfl, rfl, rfl, ?_⟩
  have happ : (s.pendingTimers ++ [500]).isEmpty = false := by
    cases s.pendingTimers <;> rfl
  show lifecycleState
      { s with emittedBeforeQuit := s.emittedBeforeQuit + 1,
               pendingTimers := s.pendingTimers ++ [500] } =
    LifecycleState.shuttingDown
  simp [lifecycleState, hexit, happ]

/-- C4 witness for the amended theorem at a concrete ShuttingDown state. -/
theorem quit_during_shutdown_reenters_witness :
    lifecycleState (applyEffects (applyEffects initialState (onMenuEvent true "quit"))
        (onMenuEvent true "quit")) = LifecycleState.shuttingDown :=
  (quit_during_shutdown_reenters (applyEffects initialState (onMenuEvent true "quit"))
    (by decide)).2.2.2

/-- C5: the tray-quit grace period (500ms) and the quit-on-close grace
period (200ms) are the literal constants handed to the spawned exit
threads, and 200 ≤ 500. -/
theorem grace_periods_ordered (windowExists : Bool) :
    Effect.spawnExitTimer 500 ∈ onMenuEvent windowExists "quit" ∧
    Effect.spawnExitTimer 200 ∈ onWindowEvent false WindowEvent.closeRequested ∧
    200 ≤ 500 := by
  cases windowExists <;> exact ⟨by decide, by decide, by decide⟩

/-- C6: tray "show", tray left-click, and the second-instance callback all
produce exactly show-then-focus; the result always leaves the window
visible; and from a visible state the operation leaves the observable
state unchanged while still (re)asserting focus. -/
theorem activate_shows_focuses_idempotent (s : AppState)
    (h : s.windowVisible = true) :
    onMenuEvent true "show" = [Effect.showWindow, Effect.setFocus] ∧
    onTrayIconEvent true (TrayIconEvent.click MouseButton.left) =
      [Effect.showWindow, Effect.setFocus] ∧
    onSecondInstance true = [Effect.showWindow, Effect.setFocus] ∧
    (∀ t : AppState, (applyEffects t (onMenuEvent true "show")).windowVisible = true) ∧
    applyEffects s (onMenuEvent true "show") = s ∧
    Effect.setFocus ∈ onMenuEvent true "show" := by
  refine ⟨rfl, rfl, rfl, fun t => rfl, ?_, by decide⟩
  obtain ⟨v, p, e, x⟩ := s
  simp only at h
  subst h
  rfl

/-- C6 witness: activating from the initial (visible) state is the
identity on the observable state. -/
theorem activate_shows_focuses_idempotent_witness :
    applyEffects initialState (onMenuEvent true "show") = initialState :=
  (activate_shows_focuses_idempotent initialState rfl).2.2.2.2.1

/-- C7: a menu-selection event whose identifier is neither "show" nor
"quit" performs no action, and a tray icon click with a button other than
left produces no effect. -/
theorem unknown_menu_id_and_nonleft_click_noop (windowExists : Bool)
    (id : String) (h1 : id ≠ "show") (h2 : id ≠ "quit")
    (b : MouseButton) (hb : b ≠ MouseButton.left) :
    onMenuEvent windowExists id = [] ∧
    onTrayIconEvent windowExists (TrayIconEvent.click b) = [] := by
  constructor
  · unfold onMenuEvent
    split
    · exact absurd rfl h1
    · exact absurd rfl h2
    · rfl
  · cases b
    · exact absurd rfl hb
    · cases windowExists <;> rfl
    · cases windowExists <;> rfl

/-- C7 witness at an unknown identifier and a right-click. -/
theorem unknown_menu_id_and_nonleft_click_noop_witness :
    onMenuEvent true "settings" = [] ∧
    onTrayIconEvent true (TrayIconEvent.click MouseButton.right) = [] :=
  unknown_menu_id_and_nonleft_click_noop true "settings" (by decide) (by decide)
    MouseButton.right (by decide)

/-- C8: when the "main" window cannot be found at tray quit, no
`"app:before-quit"` is emitted, yet the 500ms exit timer is still spawned
and a fired timer still exits the process. -/
theorem tray_quit_without_window :
    onMenuEvent false "quit" = [Effect.spawnExitTimer 500] ∧
    Effect.emitBeforeQuit ∉ onMenuEvent false "quit" ∧
    (∀ s : AppState,
      (fireTimer (applyEffects s (onMenuEvent false "quit"))).exited = true) :=
  ⟨rfl, by decide, fun _ => rfl⟩

/-- C9: setup panics (an unwrap on None), rather than returning through
the fail-fast Result path, when the "main" webview window is missing or
the default window icon is missing; with both present it returns Ok. -/
theorem setup_unwrap_panics :
    setup none (some ()) true = PanicOr.panicked unwrapNoneMsg ∧
    setup (some ()) none true = PanicOr.panicked unwrapNoneMsg ∧
    (∀ e : String, setup none (some ()) true ≠ PanicOr.value (Except.error e)) ∧
    (∀ e : String, setup (some ()) none true ≠ PanicOr.value (Except.error e)) ∧
    setup (some ()) (some ()) true = PanicOr.value (Except.ok ()) := by
  refine ⟨rfl, rfl, fun e h => ?_, fun e h => ?_, rfl⟩
  · exact PanicOr.noConfusion h
  · exact PanicOr.noConfusion h

/-- C10: the second-instance handler is total — it never errors, whatever
the outcomes of `show()` and `set_focus()`, and its result is exactly the
pure handler's effects, independent of those outcomes. -/
theorem second_instance_total (window : Option Unit)
    (r1 r2 r1' r2' : Except String Unit) :
    onSecondInstanceFallible window r1 r2 =
      Except.ok (onSecondInstance window.isSome) ∧
    onSecondInstanceFallible window r1 r2 =
      onSecondInstanceFallible window r1' r2' := by
  cases window <;> exact ⟨rfl, rfl⟩

end Nodes
